import Mathlib

/-
Verification of the oil-perps trading core against its specification.

The Rust sources are shallowly embedded: u64/u32 quantities become Nat,
i64/i128 quantities become Int.  Plain Rust arithmetic is modelled exactly
(Solana/Anchor builds abort the instruction on overflow, so theorems add
explicit no-overflow bounds where they matter); explicit narrowing casts
(`as u64`, `as u32`, `as i64`) are modelled by the matching modular
truncation; `checked_*`/`require!` failure paths become `Except`/`Option`;
`saturating_*` become clamped operations.  Rust signed division truncates
toward zero, which is `Int.tdiv`.
-/

namespace OilPerps

/-- 2^64, the number of values of a u64. -/
def U64MOD : Nat := 18446744073709551616

/-- 2^32, the number of values of a u32. -/
def U32MOD : Nat := 4294967296

/-- Largest u64 value. -/
def U64MAX : Nat := U64MOD - 1

/-- Largest i64 value. -/
def I64MAX : Int := 9223372036854775807

/-- Smallest i64 value. -/
def I64MIN : Int := -9223372036854775808

/-- Narrowing cast of an unsigned 128-bit intermediate to u64 (`as u64`). -/
def u64cast (n : Nat) : Nat := n % U64MOD

/-- Narrowing cast of a u64 value to u32 (`as u32`). -/
def u32cast (n : Nat) : Nat := n % U32MOD

/-- Reinterpreting cast of a signed value into u64 (`as u64` on an i64). -/
def u64castI (x : Int) : Nat := (x % 18446744073709551616).toNat

/-- Narrowing cast of a signed 128-bit intermediate to i64 (`as i64`). -/
def i64cast (x : Int) : Int :=
  (x + 9223372036854775808) % 18446744073709551616 - 9223372036854775808

/-- `u64::saturating_add`. -/
def satAddU64 (a b : Nat) : Nat := min (a + b) U64MAX

/-- `u64::saturating_sub` is truncated subtraction on Nat. -/
def satSubU64 (a b : Nat) : Nat := a - b

/-- `i64::saturating_add`. -/
def satAddI64 (a b : Int) : Int := max I64MIN (min (a + b) I64MAX)

/-- Truncating (toward-zero) division, the semantics of Rust `/` on signed ints. -/
def rustDiv (a b : Int) : Int := a.tdiv b

-- ===========================================================================
-- perps-core: state (src/programs/perps-core/src/state)
-- ===========================================================================

/-- Position side (`Side` in state/position.rs). -/
inductive Side where
  | Long
  | Short
deriving DecidableEq, Repr

/-- Position lifecycle status (`PositionStatus` in state/position.rs). -/
inductive PositionStatus where
  | Open
  | Closed
  | Liquidated
deriving DecidableEq, Repr

/-- `Position` account (state/position.rs); only arithmetic-relevant fields. -/
structure Position where
  side : Side
  size : Nat                 -- u64, base units
  collateral : Nat           -- u64, quote units
  entry_price : Nat          -- u64, 6 decimals
  realized_pnl : Int         -- i64
  last_funding_payment : Int -- i64
  status : PositionStatus
deriving DecidableEq, Repr

/-- `UserAccount` (state/position.rs). -/
structure UserAccount where
  collateral_balance : Nat   -- u64
  total_trades : Nat         -- u64
  realized_pnl : Int         -- i64
deriving DecidableEq, Repr

/-- `Market` account (state/market.rs); only arithmetic-relevant fields. -/
structure Market where
  max_leverage : Nat              -- u32
  maintenance_margin_ratio : Nat  -- u32, bp
  initial_margin_ratio : Nat      -- u32, bp
  taker_fee : Nat                 -- u32, bp
  liquidation_fee : Nat           -- u32, bp
  long_open_interest : Nat        -- u64
  short_open_interest : Nat       -- u64
  max_open_interest : Nat         -- u64
  funding_rate : Int              -- i64
  last_funding_time : Int         -- i64
  funding_interval : Int          -- i64
  insurance_fund : Nat            -- u64
  is_paused : Bool
deriving DecidableEq, Repr

/-- `Vault` account (state/market.rs): the `total_deposits` mirror. -/
structure Vault where
  total_deposits : Nat       -- u64
deriving DecidableEq, Repr

/-- `Position::notional_value`: `(size as u128 * entry_price as u128 / 1_000_000)
    .unwrap_or(0) as u64`.  The u128 multiply of two u64s cannot overflow and the
    divisor is nonzero, so the checked chain never fails; the final `as u64`
    truncates modulo 2^64. -/
def Position.notional_value (p : Position) : Nat :=
  u64cast (p.size * p.entry_price / 1000000)

/-- `Position::unrealized_pnl`: exact i128 arithmetic, toward-zero division,
    then the final `as i64` narrowing. -/
def Position.unrealized_pnl (p : Position) (current_price : Nat) : Int :=
  let price_diff : Int :=
    match p.side with
    | Side.Long => (current_price : Int) - (p.entry_price : Int)
    | Side.Short => (p.entry_price : Int) - (current_price : Int)
  i64cast (rustDiv ((p.size : Int) * price_diff) 1000000)

/-- `Position::margin_ratio`: equity via `saturating_add`, zero on nonpositive
    equity or zero notional, else `((equity as u64) * 10000 / notional) as u32`.
    The u64 product `equity * 10000` is modelled exactly (theorems about this
    function carry the corresponding no-overflow bound). -/
def Position.margin_ratio (p : Position) (current_price : Nat) : Nat :=
  let pnl := p.unrealized_pnl current_price
  let equity := satAddI64 (i64cast (p.collateral : Int)) pnl
  if equity ≤ 0 then 0
  else
    let notional := p.notional_value
    if notional = 0 then 0
    else u32cast (equity.toNat * 10000 / notional)

/-- `Position::is_liquidatable`. -/
def Position.is_liquidatable (p : Position) (current_price : Nat)
    (maintenance_margin_ratio : Nat) : Bool :=
  p.margin_ratio current_price < maintenance_margin_ratio

/-- The exact mathematical notional the spec prescribes:
    `notional(size, price) = size * price / 1_000_000`. -/
def exactNotional (size price : Nat) : Nat := size * price / 1000000

-- ===========================================================================
-- Oracle price normalization
-- ===========================================================================

/-- `parse_pyth_price` (backend/api/src/oracle.rs): i64 arithmetic, converting a
    raw price with exponent `expo` to 6-decimal fixed point; the i64 result is
    reinterpreted as u64 by the final cast. -/
def parse_pyth_price6 (raw : Int) (expo : Int) : Nat :=
  if expo < -6 then
    u64castI (rustDiv raw ((10:Int) ^ (-6 - expo).toNat))
  else if expo > -6 then
    u64castI (raw * (10:Int) ^ (expo + 6).toNat)
  else
    u64castI raw

/-- The normalization rule as worded by the spec: if `expo < -6` divide by
    `10^(-6-expo)`, if `expo > -6` multiply by `10^(6+expo)` (the magnitude of
    `10^(-6-expo)`), otherwise identity. -/
def specNormalize (raw : Int) (expo : Int) : Int :=
  if expo < -6 then rustDiv raw ((10:Int) ^ (-6 - expo).toNat)
  else if expo > -6 then raw * (10:Int) ^ (expo + 6).toNat
  else raw

/-- The on-chain conversion used by close_position / liquidate / update_funding:
    `(price as u64).checked_mul(10u64.pow(6 + expo.abs())).checked_div(10u64.pow(expo.abs()))`,
    failing with MathOverflow when the u64 multiply overflows.  The handlers
    have already required `raw > 0`. -/
def handlerOraclePrice (raw : Int) (expo : Int) : Option Nat :=
  let p := raw.toNat
  let m := p * 10 ^ (6 + expo.natAbs)
  if m < U64MOD then some (m / 10 ^ expo.natAbs) else none

-- ===========================================================================
-- perps-core: instruction handlers (post-oracle-conversion core logic)
-- ===========================================================================

/-- Error taxonomy of the perps-core program (errors.rs), plus a marker for a
    failed SPL token transfer (insufficient vault token balance aborts the
    instruction). -/
inductive PerpsError where
  | Unauthorized
  | PositionAlreadyClosed
  | InvalidOraclePrice
  | StaleOraclePrice
  | MathOverflow
  | InsufficientCollateral
  | NotLiquidatable
  | NoRewardsToClaim
  | InsufficientVaultBalance
  | InvalidMarketConfig
  | TokenTransferFailed
deriving DecidableEq, Repr

/-- Result of `close_position`: updated market, position, user account, vault
    token-account balance, and the settlement paid out. -/
structure CloseResult where
  market : Market
  position : Position
  user : UserAccount
  vaultTokens : Nat
  settlement : Nat
deriving DecidableEq, Repr

/-- `close_position` handler (instructions/close_position.rs) after the oracle
    fetch: `oracle_price` is the already-converted mark price and the Accounts
    constraint `position.status == Open` is the first check.  `vaultTokens` is
    the SPL balance of the vault token account; the final transfer fails when
    it cannot cover the settlement.  Note: `vault.total_deposits` is NOT
    touched by this handler. -/
def closePosition (m : Market) (p : Position) (u : UserAccount)
    (vaultTokens : Nat) (oracle_price : Nat) : Except PerpsError CloseResult :=
  if p.status ≠ PositionStatus.Open then .error .PositionAlreadyClosed else
  let pnl := p.unrealized_pnl oracle_price
  let funding_diff := m.funding_rate - p.last_funding_payment
  let funding_payment : Int :=
    match p.side with
    | Side.Long => -(rustDiv (i64cast (p.size : Int) * funding_diff) 1000000)
    | Side.Short => rustDiv (i64cast (p.size : Int) * funding_diff) 1000000
  let notional := p.notional_value
  let fee := u64cast (notional * m.taker_fee / 10000)
  let total_pnl := pnl + funding_payment - i64cast (fee : Int)
  let settlement := (max (i64cast (p.collateral : Int) + total_pnl) 0).toNat
  let m' :=
    { m with
      long_open_interest :=
        match p.side with
        | Side.Long => satSubU64 m.long_open_interest p.size
        | Side.Short => m.long_open_interest
      short_open_interest :=
        match p.side with
        | Side.Long => m.short_open_interest
        | Side.Short => satSubU64 m.short_open_interest p.size
      insurance_fund := satAddU64 m.insurance_fund fee }
  let p' := { p with status := PositionStatus.Closed, realized_pnl := total_pnl }
  let u' := { u with realized_pnl := satAddI64 u.realized_pnl total_pnl,
                     total_trades := satAddU64 u.total_trades 1 }
  if settlement > 0 then
    if vaultTokens < settlement then .error .TokenTransferFailed
    else .ok ⟨m', p', u', vaultTokens - settlement, settlement⟩
  else .ok ⟨m', p', u', vaultTokens, settlement⟩

/-- Result of `liquidate`. -/
structure LiquidateResult where
  market : Market
  position : Position
  user : UserAccount
  vaultTokens : Nat
  reward : Nat
deriving DecidableEq, Repr

/-- `liquidate` handler (instructions/liquidate.rs) after the oracle fetch:
    requires the position Open and liquidatable; pays the liquidation reward to
    the caller and the remainder of the collateral to the insurance fund.
    `vault.total_deposits` is NOT touched. -/
def liquidate (m : Market) (p : Position) (u : UserAccount)
    (vaultTokens : Nat) (oracle_price : Nat) : Except PerpsError LiquidateResult :=
  if p.status ≠ PositionStatus.Open then .error .PositionAlreadyClosed else
  if ¬ p.is_liquidatable oracle_price m.maintenance_margin_ratio then
    .error .NotLiquidatable
  else
  let pnl := p.unrealized_pnl oracle_price
  let remaining_collateral := (max (i64cast (p.collateral : Int) + pnl) 0).toNat
  let liquidation_reward := u64cast (remaining_collateral * m.liquidation_fee / 10000)
  let to_insurance := satSubU64 remaining_collateral liquidation_reward
  let m' :=
    { m with
      long_open_interest :=
        match p.side with
        | Side.Long => satSubU64 m.long_open_interest p.size
        | Side.Short => m.long_open_interest
      short_open_interest :=
        match p.side with
        | Side.Long => m.short_open_interest
        | Side.Short => satSubU64 m.short_open_interest p.size
      insurance_fund := satAddU64 m.insurance_fund to_insurance }
  let p' := { p with status := PositionStatus.Liquidated, realized_pnl := pnl }
  let u' := { u with realized_pnl := satAddI64 u.realized_pnl pnl }
  if liquidation_reward > 0 then
    if vaultTokens < liquidation_reward then .error .TokenTransferFailed
    else .ok ⟨m', p', u', vaultTokens - liquidation_reward, liquidation_reward⟩
  else .ok ⟨m', p', u', vaultTokens, liquidation_reward⟩

/-- The funding-rate delta of `update_funding` (instructions/update_funding.rs):
    i128 arithmetic `((long_oi - short_oi) * 1_000_000 / total_oi) * 100 / 1_000_000`
    narrowed by `as i64` (always exact since the magnitude is at most 100). -/
def fundingDelta (long_oi short_oi : Nat) : Int :=
  let l : Int := long_oi
  let s : Int := short_oi
  let total := l + s
  if total > 0 then
    let imbalance := rustDiv ((l - s) * 1000000) total
    i64cast (rustDiv (imbalance * 100) 1000000)
  else 0

/-- `update_funding` handler: requires `now - last_funding_time >= funding_interval`,
    then a fresh positive oracle price whose on-chain conversion succeeds, then
    accrues the OI-imbalance funding delta with `saturating_add` and stamps
    `last_funding_time = now`. -/
def updateFunding (m : Market) (now : Int) (raw expo publish_time : Int) :
    Except PerpsError Market :=
  if ¬ (now - m.last_funding_time ≥ m.funding_interval) then .error .InvalidMarketConfig else
  if ¬ (publish_time ≥ now - 60) then .error .StaleOraclePrice else
  if ¬ (raw > 0) then .error .InvalidOraclePrice else
  match handlerOraclePrice raw expo with
  | none => .error .MathOverflow
  | some _ =>
    .ok { m with
          funding_rate := satAddI64 m.funding_rate
            (fundingDelta m.long_open_interest m.short_open_interest),
          last_funding_time := now }

-- ===========================================================================
-- perps-core: ledger-level state, for the conservation-of-accounting claim
-- ===========================================================================

/-- The per-market ledger: the market record, its vault record (the
    `total_deposits` mirror), the actual SPL balance of the vault token
    account, the user accounts, the positions (tagged by owner index) and the
    referral rewards accrued but not yet withdrawn. -/
structure LedgerState where
  market : Market
  vault : Vault
  vaultTokens : Nat
  users : List UserAccount
  positions : List Position
  pendingReferral : Nat
deriving DecidableEq, Repr

/-- The conservation-of-accounting equation (spec §8 property 1):
    `vault.total_deposits = Σ open positions' collateral + Σ user accounts'
    collateral_balance + insurance_fund + fees not yet withdrawn`. -/
def conservation (s : LedgerState) : Prop :=
  s.vault.total_deposits =
    ((s.positions.filter (fun p => p.status = PositionStatus.Open)).map
        (fun p => p.collateral)).sum
      + (s.users.map (fun u => u.collateral_balance)).sum
      + s.market.insurance_fund + s.pendingReferral

instance (s : LedgerState) : Decidable (conservation s) := by
  unfold conservation; infer_instance

/-- Replace element `i` of a list. -/
def setAt (l : List α) (i : Nat) (a : α) : List α := l.set i a

/-- `deposit_collateral` handler (instructions/deposit_collateral.rs) at the
    ledger level: tokens move user → vault, then
    `collateral_balance.checked_add(amount).unwrap()` and
    `total_deposits.checked_add(amount).unwrap()` (the unwrap aborts on u64
    overflow). -/
def depositCollateralOp (s : LedgerState) (i : Nat) (amount : Nat) :
    Except PerpsError LedgerState :=
  match s.users.get? i with
  | none => .error .Unauthorized
  | some u =>
    if u.collateral_balance + amount ≥ U64MOD then .error .MathOverflow else
    if s.vault.total_deposits + amount ≥ U64MOD then .error .MathOverflow else
    .ok { s with
          users := setAt s.users i { u with collateral_balance := u.collateral_balance + amount },
          vault := ⟨s.vault.total_deposits + amount⟩,
          vaultTokens := s.vaultTokens + amount }

/-- `withdraw_collateral` handler (instructions/withdraw_collateral.rs) at the
    ledger level: requires sufficient free balance, transfers vault → user,
    decrements both the balance and the `total_deposits` mirror. -/
def withdrawCollateralOp (s : LedgerState) (i : Nat) (amount : Nat) :
    Except PerpsError LedgerState :=
  match s.users.get? i with
  | none => .error .Unauthorized
  | some u =>
    if ¬ (u.collateral_balance ≥ amount) then .error .InsufficientCollateral else
    if s.vaultTokens < amount then .error .TokenTransferFailed else
    .ok { s with
          users := setAt s.users i { u with collateral_balance := u.collateral_balance - amount },
          vault := ⟨s.vault.total_deposits - amount⟩,
          vaultTokens := s.vaultTokens - amount }

/-- Modelled from the spec: the `open_position` handler is referenced from the
    program entrypoint but its file is absent from the snapshot (spec §9).
    Following spec §4.C: validates leverage and margin
    (`required = notional × initial_margin_ratio / 10000`, collateral must
    cover it), moves `collateral` from the user's free balance into a fresh
    Position opened at `entry_price`, increments the matching OI side subject
    to `max_open_interest`, and snapshots
    `last_funding_payment = market.funding_rate`. -/
def specOpenPosition (s : LedgerState) (i : Nat) (side : Side)
    (size collateral entry_price : Nat) (leverage : Nat) :
    Except PerpsError LedgerState :=
  match s.users.get? i with
  | none => .error .Unauthorized
  | some u =>
    if s.market.is_paused then .error .InvalidMarketConfig else
    if ¬ (0 < leverage ∧ leverage ≤ s.market.max_leverage) then .error .InvalidMarketConfig else
    let notional := exactNotional size entry_price
    let required_margin := notional * s.market.initial_margin_ratio / 10000
    if ¬ (collateral ≥ required_margin) then .error .InsufficientCollateral else
    if ¬ (u.collateral_balance ≥ collateral) then .error .InsufficientCollateral else
    let curOi :=
      match side with
      | Side.Long => s.market.long_open_interest
      | Side.Short => s.market.short_open_interest
    if ¬ (curOi + size ≤ s.market.max_open_interest) then .error .InvalidMarketConfig else
    let p : Position :=
      { side := side, size := size, collateral := collateral,
        entry_price := entry_price, realized_pnl := 0,
        last_funding_payment := s.market.funding_rate,
        status := PositionStatus.Open }
    .ok { s with
          users := setAt s.users i { u with collateral_balance := u.collateral_balance - collateral },
          positions := s.positions ++ [p],
          market :=
            match side with
            | Side.Long => { s.market with long_open_interest := s.market.long_open_interest + size }
            | Side.Short => { s.market with short_open_interest := s.market.short_open_interest + size } }

/-- `close_position` at the ledger level: applies `closePosition` to position
    `j` (owned by user `i`) and writes the results back.  The vault record's
    `total_deposits` is left untouched, exactly as in the handler. -/
def closePositionOp (s : LedgerState) (i j : Nat) (oracle_price : Nat) :
    Except PerpsError LedgerState :=
  match s.users.get? i, s.positions.get? j with
  | some u, some p =>
    match closePosition s.market p u s.vaultTokens oracle_price with
    | .error e => .error e
    | .ok r =>
      .ok { s with
            market := r.market,
            users := setAt s.users i r.user,
            positions := setAt s.positions j r.position,
            vaultTokens := r.vaultTokens }
  | _, _ => .error .Unauthorized

-- ===========================================================================
-- prop-AMM (src/programs/prop-amm)
-- ===========================================================================

/-- `LpVault` account (prop-amm/src/state/vault.rs); arithmetic fields. -/
structure LpVault where
  total_assets : Nat         -- u64
  total_shares : Nat         -- u64
  pending_fees : Nat         -- u64
  net_exposure : Int         -- i64
  total_long_size : Nat      -- u64
  total_short_size : Nat     -- u64
  unrealized_pnl : Int       -- i64
  cumulative_fees : Nat      -- u64
  cumulative_pnl : Int       -- i64
  max_exposure : Nat         -- u64
  max_utilization : Nat      -- u32, bp
  max_position_size : Nat    -- u64
  base_spread : Nat          -- u32, bp
  max_skew_spread : Nat      -- u32, bp
  trading_fee : Nat          -- u32, bp
  lp_fee_share : Nat         -- u32, bp
  withdrawal_delay : Int     -- i64
  is_active : Bool
deriving DecidableEq, Repr

/-- `LpVault::calculate_spread`: skew ratio `|net_exposure| * 10000 /
    max_exposure` (zero when `max_exposure == 0`), narrowed by `as u32`, times
    `max_skew_spread / 10000`, added to the base spread; halved (integer
    division) when the trade direction opposes the sign of `net_exposure`.
    There is no cap on the skew ratio. -/
def LpVault.calculate_spread (v : LpVault) (is_long : Bool) : Nat :=
  let skew_ratio := if v.max_exposure > 0 then v.net_exposure.natAbs * 10000 / v.max_exposure else 0
  let skew_spread := u32cast skew_ratio * v.max_skew_spread / 10000
  let total_spread := v.base_spread + skew_spread
  let exposure_reducing := (is_long && decide (v.net_exposure < 0)) ||
                           (!is_long && decide (v.net_exposure > 0))
  if exposure_reducing then total_spread / 2 else total_spread

/-- The spread formula as the claim words it: the skew ratio is capped at
    10000 before being applied to `max_skew_spread` (quoted here for the
    direction that does not earn the exposure-reducing rebate). -/
def claimedSpreadCap (v : LpVault) : Nat :=
  let skew_ratio := if v.max_exposure > 0 then v.net_exposure.natAbs * 10000 / v.max_exposure else 0
  v.base_spread + min skew_ratio 10000 * v.max_skew_spread / 10000

/-- `LpVault::share_value`: `1_000_000` at genesis, else
    `((total_assets + unrealized_pnl) as u64) * 1_000_000 / total_shares`. -/
def LpVault.share_value (v : LpVault) : Nat :=
  if v.total_shares = 0 then 1000000
  else u64castI ((v.total_assets : Int) + v.unrealized_pnl) * 1000000 / v.total_shares

/-- `LpVault::shares_for_deposit`. -/
def LpVault.shares_for_deposit (v : LpVault) (amount : Nat) : Nat :=
  if v.total_shares = 0 then amount
  else amount * 1000000 / v.share_value

/-- `LpPosition` account (prop-amm/src/state/lp_position.rs). -/
structure LpPosition where
  shares : Nat               -- u64
  deposited_amount : Nat     -- u64
  deposited_at : Int         -- i64
  withdrawal_requested_at : Int -- i64, 0 = none
deriving DecidableEq, Repr

/-- `LpPosition::can_withdraw`: eligible iff a withdrawal was requested and the
    delay has elapsed. -/
def LpPosition.can_withdraw (lp : LpPosition) (withdrawal_delay now : Int) : Bool :=
  if lp.withdrawal_requested_at = 0 then false
  else decide (now ≥ lp.withdrawal_requested_at + withdrawal_delay)

/-- prop-AMM error taxonomy (errors.rs), as needed here. -/
inductive PropAmmError where
  | VaultNotActive
  | InvalidParameters
  | MathOverflow
deriving DecidableEq, Repr

/-- `deposit` handler (prop-amm/src/instructions/deposit.rs): requires the
    vault active and `amount > 0`, mints `shares_for_deposit` (which must be
    positive), transfers tokens in, grows the vault, then unconditionally
    executes `lp_position.withdrawal_requested_at = 0` — resetting any pending
    withdrawal request. -/
def ammDeposit (v : LpVault) (lp : LpPosition) (amount : Nat) (now : Int) :
    Except PropAmmError (LpVault × LpPosition) :=
  if ¬ v.is_active then .error .VaultNotActive else
  if ¬ (amount > 0) then .error .InvalidParameters else
  let shares_to_mint := v.shares_for_deposit amount
  if ¬ (shares_to_mint > 0) then .error .MathOverflow else
  let v' := { v with total_assets := v.total_assets + amount,
                     total_shares := v.total_shares + shares_to_mint }
  let lp' := { lp with
               deposited_at := if lp.shares = 0 then now else lp.deposited_at,
               shares := lp.shares + shares_to_mint,
               deposited_amount := lp.deposited_amount + amount,
               withdrawal_requested_at := 0 }
  .ok (v', lp')

-- ===========================================================================
-- mm-registry (src/programs/mm-registry)
-- ===========================================================================

/-- `MmStatus` (mm-registry/src/state/market_maker.rs). -/
inductive MmStatus where
  | Inactive
  | Active
  | Suspended
  | Deregistered
deriving DecidableEq, Repr

/-- `MarketMaker` account; arithmetic fields. -/
structure MarketMaker where
  collateral_deposited : Nat  -- u64
  collateral_locked : Nat     -- u64
  collateral_available : Nat  -- u64
  inventory : Int             -- i64
  avg_inventory_price : Nat   -- u64
  realized_pnl : Int          -- i64
  total_volume : Nat          -- u64
  total_fills : Nat           -- u64
  total_fees_paid : Nat       -- u64
  active_quotes : Nat         -- u8
  max_quotes : Nat            -- u8
  status : MmStatus
deriving DecidableEq, Repr

/-- `MarketMaker::has_available_collateral`. -/
def MarketMaker.has_available_collateral (mm : MarketMaker) (amount : Nat) : Bool :=
  mm.collateral_available ≥ amount

/-- `MarketMaker::lock_collateral`: `locked += amount;
    available = deposited.saturating_sub(locked)`. -/
def MarketMaker.lock_collateral (mm : MarketMaker) (amount : Nat) : MarketMaker :=
  let locked := mm.collateral_locked + amount
  { mm with collateral_locked := locked,
            collateral_available := satSubU64 mm.collateral_deposited locked }

/-- `MarketMaker::unlock_collateral`: `locked = locked.saturating_sub(amount);
    available = deposited.saturating_sub(locked)`. -/
def MarketMaker.unlock_collateral (mm : MarketMaker) (amount : Nat) : MarketMaker :=
  let locked := satSubU64 mm.collateral_locked amount
  { mm with collateral_locked := locked,
            collateral_available := satSubU64 mm.collateral_deposited locked }

/-- `MarketMaker::update_inventory` (fresh / same-side averaging / reducing
    with realized PnL and side flip), with the source's i128 arithmetic and
    `as u64` / `as i64` narrowings. -/
def MarketMaker.update_inventory (mm : MarketMaker) (size : Int) (price : Nat)
    (is_buy : Bool) : MarketMaker :=
  let signed_size := if is_buy then size else -size
  if mm.inventory = 0 then
    { mm with inventory := signed_size, avg_inventory_price := price }
  else if (mm.inventory > 0 ∧ signed_size > 0) ∨ (mm.inventory < 0 ∧ signed_size < 0) then
    let old_value := mm.inventory.natAbs * mm.avg_inventory_price
    let new_value := signed_size.natAbs * price
    let total_size := mm.inventory.natAbs + signed_size.natAbs
    { mm with avg_inventory_price := u64cast ((old_value + new_value) / total_size),
              inventory := mm.inventory + signed_size }
  else
    let close_size : Int := min signed_size.natAbs mm.inventory.natAbs
    let pnl :=
      if mm.inventory > 0 then
        i64cast (rustDiv (((price : Int) - (mm.avg_inventory_price : Int)) * close_size) 1000000)
      else
        i64cast (rustDiv (((mm.avg_inventory_price : Int) - (price : Int)) * close_size) 1000000)
    let inv' := mm.inventory + signed_size
    let avg' :=
      if (inv' > 0 ∧ signed_size > 0) ∨ (inv' < 0 ∧ signed_size < 0) then price
      else mm.avg_inventory_price
    { mm with realized_pnl := mm.realized_pnl + pnl,
              inventory := inv',
              avg_inventory_price := avg' }

/-- `TwoSidedQuote` account (mm-registry/src/state/quote.rs). -/
structure TwoSidedQuote where
  bid_price : Nat            -- u64
  bid_size : Nat             -- u64
  bid_remaining : Nat        -- u64
  ask_price : Nat            -- u64
  ask_size : Nat             -- u64
  ask_remaining : Nat        -- u64
  min_fill_size : Nat        -- u64
  collateral_locked : Nat    -- u64
  expires_at : Int           -- i64, 0 = no expiry
  is_active : Bool
deriving DecidableEq, Repr

/-- `TwoSidedQuote::is_valid`. -/
def TwoSidedQuote.is_valid (q : TwoSidedQuote) (now : Int) : Bool :=
  if ¬ q.is_active then false
  else if q.expires_at > 0 ∧ now > q.expires_at then false
  else q.bid_remaining > 0 || q.ask_remaining > 0

/-- `MmRegistry` account; arithmetic fields. -/
structure MmRegistry where
  min_collateral : Nat       -- u64
  max_spread : Nat           -- u32, bp
  min_quote_size : Nat       -- u64
  max_quote_size : Nat       -- u64
  mm_fee : Nat               -- u32, bp
  active_quotes : Nat        -- u64
  total_volume : Nat         -- u64
  total_fees : Nat           -- u64
  is_trading_enabled : Bool
deriving DecidableEq, Repr

/-- mm-registry error taxonomy (errors.rs), as needed here. -/
inductive MmError where
  | TradingDisabled
  | Unauthorized
  | MarketMakerNotActive
  | InvalidPrice
  | QuoteSizeTooSmall
  | QuoteSizeTooLarge
  | SpreadTooWide
  | MaxQuotesReached
  | InsufficientCollateral
  | QuoteNotActive
  | QuoteExpired
  | FillSizeTooSmall
  | FillSizeExceedsRemaining
  | InvalidQuoteParams
  | CollateralLocked
deriving DecidableEq, Repr

/-- `post_quote` parameters. -/
structure PostQuoteParams where
  bid_price : Nat
  bid_size : Nat
  ask_price : Nat
  ask_size : Nat
  min_fill_size : Nat
  expires_in : Int
deriving Repr

/-- `post_quote` handler (instructions/post_quote.rs): validates prices, size
    bounds, spread and quote count, computes
    `collateral_required = max(bid notional, ask notional) / 10`, requires it
    available, creates the quote and locks the collateral. -/
def postQuote (reg : MmRegistry) (mm : MarketMaker) (params : PostQuoteParams)
    (now : Int) : Except MmError (MmRegistry × MarketMaker × TwoSidedQuote) :=
  if ¬ reg.is_trading_enabled then .error .TradingDisabled else
  if ¬ (mm.status = MmStatus.Active) then .error .MarketMakerNotActive else
  if ¬ (params.bid_price > 0) then .error .InvalidPrice else
  if ¬ (params.ask_price > params.bid_price) then .error .InvalidPrice else
  if ¬ (params.bid_size ≥ reg.min_quote_size ∧ params.bid_size ≤ reg.max_quote_size) then
    .error .QuoteSizeTooSmall else
  if ¬ (params.ask_size ≥ reg.min_quote_size ∧ params.ask_size ≤ reg.max_quote_size) then
    .error .QuoteSizeTooLarge else
  let spread := u32cast ((params.ask_price - params.bid_price) * 10000 / params.bid_price)
  if ¬ (spread ≤ reg.max_spread) then .error .SpreadTooWide else
  if ¬ (mm.active_quotes < mm.max_quotes) then .error .MaxQuotesReached else
  let max_notional := max (u64cast (params.bid_size * params.bid_price / 1000000))
                          (u64cast (params.ask_size * params.ask_price / 1000000))
  let collateral_required := max_notional / 10
  if ¬ mm.has_available_collateral collateral_required then .error .InsufficientCollateral else
  let quote : TwoSidedQuote :=
    { bid_price := params.bid_price, bid_size := params.bid_size,
      bid_remaining := params.bid_size,
      ask_price := params.ask_price, ask_size := params.ask_size,
      ask_remaining := params.ask_size,
      min_fill_size := params.min_fill_size,
      collateral_locked := collateral_required,
      expires_at := if params.expires_in > 0 then now + params.expires_in else 0,
      is_active := true }
  let mm' := { (mm.lock_collateral collateral_required) with
               active_quotes := mm.active_quotes + 1 }
  .ok ({ reg with active_quotes := reg.active_quotes + 1 }, mm', quote)

/-- `fill_quote` handler (instructions/fill_quote.rs), token transfers assumed
    funded: validates the quote and the size, settles notional and fee on the
    chosen side, updates the quote's remaining and the MM's inventory and
    deposited collateral, then recomputes the required lock from the remaining
    sizes and frees the difference `quote.collateral_locked - new_locked` via
    `unlock_collateral` — WITHOUT writing the recomputed value back into
    `quote.collateral_locked` — and deactivates the quote and decrements the
    counters when both sides are exhausted. -/
def fillQuote (reg : MmRegistry) (mm : MarketMaker) (q : TwoSidedQuote)
    (size : Nat) (is_buy : Bool) (now : Int) :
    Except MmError (MmRegistry × MarketMaker × TwoSidedQuote) :=
  if ¬ reg.is_trading_enabled then .error .TradingDisabled else
  if ¬ q.is_active then .error .QuoteNotActive else
  if ¬ q.is_valid now then .error .QuoteExpired else
  let fill_price := if is_buy then q.ask_price else q.bid_price
  let max_size := if is_buy then q.ask_remaining else q.bid_remaining
  if ¬ (size ≥ q.min_fill_size) then .error .FillSizeTooSmall else
  if ¬ (size ≤ max_size) then .error .FillSizeExceedsRemaining else
  let notional := u64cast (size * fill_price / 1000000)
  let fee := notional * reg.mm_fee / 10000
  let q1 :=
    if is_buy then { q with ask_remaining := satSubU64 q.ask_remaining size }
    else { q with bid_remaining := satSubU64 q.bid_remaining size }
  let q2 :=
    if q1.bid_remaining = 0 ∧ q1.ask_remaining = 0 then { q1 with is_active := false } else q1
  let mm1 :=
    if is_buy then
      { (mm.update_inventory (i64cast (size : Int)) fill_price false) with
        collateral_deposited := mm.collateral_deposited + notional }
    else
      { (mm.update_inventory (i64cast (size : Int)) fill_price true) with
        collateral_deposited := satSubU64 mm.collateral_deposited notional }
  let mm2 := { mm1 with total_volume := mm1.total_volume + notional,
                        total_fills := mm1.total_fills + 1,
                        total_fees_paid := mm1.total_fees_paid + fee }
  let new_max_notional := max (u64cast (q2.bid_remaining * q2.bid_price / 1000000))
                              (u64cast (q2.ask_remaining * q2.ask_price / 1000000))
  let new_collateral_locked := new_max_notional / 10
  let collateral_freed := satSubU64 q2.collateral_locked new_collateral_locked
  let mm3 := mm2.unlock_collateral collateral_freed
  let (mm4, reg1) :=
    if ¬ q2.is_active then
      ({ mm3 with active_quotes := satSubU64 mm3.active_quotes 1 },
       { reg with active_quotes := satSubU64 reg.active_quotes 1 })
    else (mm3, reg)
  .ok ({ reg1 with total_volume := reg1.total_volume + notional,
                   total_fees := reg1.total_fees + fee }, mm4, q2)

/-- `cancel_quote` handler (instructions/cancel_quote.rs): unlocks the quote's
    full `collateral_locked`, decrements the counters, destroys the record. -/
def cancelQuote (reg : MmRegistry) (mm : MarketMaker) (q : TwoSidedQuote) :
    Except MmError (MmRegistry × MarketMaker) :=
  if ¬ q.is_active then .error .QuoteNotActive else
  let mm' := { (mm.unlock_collateral q.collateral_locked) with
               active_quotes := satSubU64 mm.active_quotes 1 }
  .ok ({ reg with active_quotes := satSubU64 reg.active_quotes 1 }, mm')

/-- The MM collateral identity (spec §8 property 5) over an MM and its active
    quotes: `available = deposited − locked` and `locked` equals the sum of the
    active quotes' `collateral_locked`. -/
def mmCollateralIdentity (mm : MarketMaker) (quotes : List TwoSidedQuote) : Prop :=
  mm.collateral_available = mm.collateral_deposited - mm.collateral_locked ∧
  mm.collateral_locked = ((quotes.filter (fun q => q.is_active)).map
      (fun q => q.collateral_locked)).sum

instance (mm : MarketMaker) (quotes : List TwoSidedQuote) :
    Decidable (mmCollateralIdentity mm quotes) := by
  unfold mmCollateralIdentity; infer_instance

-- ===========================================================================
-- orderbook (src/programs/orderbook/src/lib.rs)
-- ===========================================================================

/-- `OrderSide`. -/
inductive OrderSide where
  | Bid
  | Ask
deriving DecidableEq, Repr

/-- `OrderType`. -/
inductive OrderType where
  | Limit
  | Market
  | StopLoss
  | TakeProfit
  | StopLimit
  | TrailingStop
deriving DecidableEq, Repr

/-- `OrderStatus`. -/
inductive OrderStatus where
  | Open
  | PartiallyFilled
  | Filled
  | Cancelled
  | Triggered
  | Expired
deriving DecidableEq, Repr

/-- `Order` account; the fields the trailing-stop logic reads and writes.
    At placement `highest_price = 0` and `lowest_price = u64::MAX`, while
    `trigger_price` is the caller-supplied value (any value is accepted for a
    TrailingStop, including 0). -/
structure Order where
  side : OrderSide
  order_type : OrderType
  status : OrderStatus
  trigger_price : Nat        -- u64
  trailing_amount : Nat      -- u64 (price units, or bp when trailing_percent)
  trailing_percent : Bool
  highest_price : Nat        -- u64
  lowest_price : Nat         -- u64
deriving DecidableEq, Repr

/-- The trail applied below the running high for an Ask trailing stop:
    `current - (percent ? current * amount / 10000 : amount)` with saturating
    subtraction. -/
def trailAsk (current amount : Nat) (percent : Bool) : Nat :=
  if percent then satSubU64 current (current * amount / 10000)
  else satSubU64 current amount

/-- The trail applied above the running low for a Bid trailing stop:
    `current + (percent ? current * amount / 10000 : amount)` with saturating
    addition. -/
def trailBid (current amount : Nat) (percent : Bool) : Nat :=
  if percent then satAddU64 current (current * amount / 10000)
  else satAddU64 current amount

/-- `Order::update_trailing_stop` (orderbook/src/lib.rs): no-op unless the
    order is a TrailingStop.  Ask: when `current > highest_price`, record the
    new high and re-trail the trigger below it.  Bid: when
    `current < lowest_price` or `lowest_price == 0`, record the new low and
    re-trail the trigger above it. -/
def Order.update_trailing_stop (o : Order) (current_price : Nat) : Order :=
  if o.order_type ≠ OrderType.TrailingStop then o else
  match o.side with
  | OrderSide.Ask =>
    if current_price > o.highest_price then
      { o with highest_price := current_price,
               trigger_price := trailAsk current_price o.trailing_amount o.trailing_percent }
    else o
  | OrderSide.Bid =>
    if current_price < o.lowest_price ∨ o.lowest_price = 0 then
      { o with lowest_price := current_price,
               trigger_price := trailBid current_price o.trailing_amount o.trailing_percent }
    else o

-- ===========================================================================
-- Claim-side formula renderings and concrete scenario states
-- ===========================================================================

/-- The margin ratio exactly as the liquidation-threshold claim words it:
    `equity × 10000 / notional` when equity and notional are both positive,
    and 0 otherwise (no u32 narrowing). -/
def claimedMarginRatio (p : Position) (price : Nat) : Nat :=
  let equity : Int := (p.collateral : Int) + p.unrealized_pnl price
  let notional := p.notional_value
  if 0 < equity ∧ 0 < notional then equity.toNat * 10000 / notional else 0

/-- The prop-AMM spread as amended: the skew ratio is NOT capped, and the 50%
    rebate applies exactly when the trade direction opposes the sign of
    `net_exposure` (long into a net-short book, short into a net-long book),
    with truncating halving. -/
def amendedSpread (v : LpVault) (is_long : Bool) : Nat :=
  let ratio := if 0 < v.max_exposure then v.net_exposure.natAbs * 10000 / v.max_exposure else 0
  let total := v.base_spread + ratio * v.max_skew_spread / 10000
  if (is_long = true ∧ v.net_exposure < 0) ∨ (is_long = false ∧ 0 < v.net_exposure) then
    total / 2
  else total

-- Scenario S1 records (spec §8): market with taker_fee = 5 bp, an open long of
-- size 10_000_000 at entry 75_000_000 with collateral 75_000, closed at mark
-- 76_500_000 with zero funding difference.

/-- S1 market: max_lev 20000, mm 500 bp, im 1000 bp, taker 5 bp, with
    `long_open_interest = 10_000_000` standing for the open position. -/
def s1Market : Market :=
  ⟨20000, 500, 1000, 5, 250, 10000000, 0, 1000000000000, 0, 0, 3600, 0, false⟩

/-- S1 position: Open Long, size 10_000_000, collateral 75_000, entry
    75_000_000, no funding snapshot. -/
def s1Position : Position :=
  ⟨Side.Long, 10000000, 75000, 75000000, 0, 0, PositionStatus.Open⟩

/-- S1 user, with the balance left after funding the position. -/
def s1User : UserAccount := ⟨925000, 0, 0⟩

/-- What `close_position` actually produces on the S1 inputs. -/
def s1CloseResult : CloseResult :=
  ⟨⟨20000, 500, 1000, 5, 250, 0, 0, 1000000000000, 0, 0, 3600, 375000, false⟩,
   ⟨Side.Long, 10000000, 75000, 75000000, 14625000, 0, PositionStatus.Closed⟩,
   ⟨925000, 1, 14625000⟩,
   999985300000, 14700000⟩

-- Conservation-of-accounting demonstration chain: one user deposits
-- 100_000_000, opens a 10x long (collateral 75_000_000, size 10_000_000 at
-- entry 75_000_000) and closes it at mark 76_500_000.

/-- Fresh market for the conservation chain. -/
def consMarket : Market :=
  ⟨20000, 500, 1000, 5, 250, 0, 0, 1000000000000, 0, 0, 3600, 0, false⟩

/-- Genesis ledger: one empty user account, empty vault. -/
def consStart : LedgerState := ⟨consMarket, ⟨0⟩, 0, [⟨0, 0, 0⟩], [], 0⟩

/-- Ledger after the 100_000_000 deposit. -/
def consAfterDeposit : LedgerState :=
  ⟨consMarket, ⟨100000000⟩, 100000000, [⟨100000000, 0, 0⟩], [], 0⟩

/-- The opened position of the conservation chain. -/
def consPosition : Position :=
  ⟨Side.Long, 10000000, 75000000, 75000000, 0, 0, PositionStatus.Open⟩

/-- Ledger after the (spec-modelled) open. -/
def consAfterOpen : LedgerState :=
  ⟨{ consMarket with long_open_interest := 10000000 }, ⟨100000000⟩, 100000000,
   [⟨25000000, 0, 0⟩], [consPosition], 0⟩

/-- Ledger after the close at mark 76_500_000: the settlement of 89_625_000
    left the vault token account, but `total_deposits` still reads
    100_000_000. -/
def consAfterClose : LedgerState :=
  ⟨{ consMarket with insurance_fund := 375000 }, ⟨100000000⟩, 10375000,
   [⟨25000000, 1, 14625000⟩],
   [⟨Side.Long, 10000000, 75000000, 75000000, 14625000, 0, PositionStatus.Closed⟩], 0⟩

-- MM-registry S4-style chain: post a two-sided quote, then a taker buys
-- 10_000_000 against the ask.

/-- Registry for the fill chain: max_spread 100 bp, sizes in [1e6, 1e8],
    mm_fee 5 bp. -/
def s4Registry : MmRegistry := ⟨0, 100, 1000000, 100000000, 5, 0, 0, 0, true⟩

/-- MM with 1_000_000_000 deposited and nothing locked. -/
def s4MM : MarketMaker :=
  ⟨1000000000, 0, 1000000000, 0, 0, 0, 0, 0, 0, 0, 10, MmStatus.Active⟩

/-- Posted quote parameters: bid 50_000_000 @ 75_000_000, ask 50_000_000 @
    75_100_000, min fill 1_000_000, no expiry. -/
def s4Params : PostQuoteParams := ⟨75000000, 50000000, 75100000, 50000000, 1000000, 0⟩

/-- Registry after the post. -/
def s4Registry1 : MmRegistry := ⟨0, 100, 1000000, 100000000, 5, 1, 0, 0, true⟩

/-- MM after the post: 375_500_000 locked. -/
def s4MM1 : MarketMaker :=
  ⟨1000000000, 375500000, 624500000, 0, 0, 0, 0, 0, 0, 1, 10, MmStatus.Active⟩

/-- The stored quote after the post. -/
def s4Quote1 : TwoSidedQuote :=
  ⟨75000000, 50000000, 50000000, 75100000, 50000000, 50000000, 1000000, 375500000, 0, true⟩

/-- Registry after the 10_000_000 buy fill. -/
def s4Registry2 : MmRegistry := ⟨0, 100, 1000000, 100000000, 5, 1, 751000000, 375500, true⟩

/-- MM after the fill: the lock dropped to 375_000_000. -/
def s4MM2 : MarketMaker :=
  ⟨1751000000, 375000000, 1376000000, -10000000, 75100000, 0, 751000000, 1, 375500, 1, 10,
   MmStatus.Active⟩

/-- Quote after the fill: still active, `collateral_locked` still reads the
    original 375_500_000. -/
def s4Quote2 : TwoSidedQuote :=
  ⟨75000000, 50000000, 50000000, 75100000, 50000000, 40000000, 1000000, 375500000, 0, true⟩

/-- Market for the funding witness: long OI 1_000_000_000, short OI
    500_000_000, hourly interval, last update at 0. -/
def fundingMarket : Market :=
  ⟨20000, 500, 1000, 5, 250, 1000000000, 500000000, 1000000000000, 0, 0, 3600, 0, false⟩

/-- Vault whose exposure exceeds `max_exposure` (reachable: closing one side of
    a balanced book pushes `|net_exposure|` past the cap that is only checked
    on opens): net 600 against a cap of 500, base 5 bp, max skew 100 bp. -/
def skewVault : LpVault :=
  ⟨0, 0, 0, 600, 0, 0, 0, 0, 0, 500, 8000, 0, 5, 100, 5, 7000, 86400, true⟩

/-- Position whose true margin ratio is a multiple of 2^32 bp: size 1, entry
    1_000_000 (notional 1), collateral 2^32. -/
def wrapPosition : Position :=
  ⟨Side.Long, 1, 4294967296, 1000000, 0, 0, PositionStatus.Open⟩

/-- Market with maintenance margin 500 bp for the wrap counterexample. -/
def wrapMarket : Market :=
  ⟨20000, 500, 1000, 5, 250, 10, 0, 1000000000000, 0, 0, 3600, 0, false⟩

/-- Trailing-stop Ask order placed with a caller-supplied trigger price of
    100_000_000 (fresh order: highest 0, lowest u64::MAX), fixed trail 1000. -/
def badTrailOrder : Order :=
  ⟨OrderSide.Ask, OrderType.TrailingStop, OrderStatus.Open, 100000000, 1000, false, 0,
   18446744073709551615⟩

/-- Trailing-stop Ask order in the post-update regime: highest 70, trigger
    re-trailed to 60 with fixed trail 10. -/
def trailOrder : Order :=
  ⟨OrderSide.Ask, OrderType.TrailingStop, OrderStatus.Open, 60, 10, false, 70,
   18446744073709551615⟩

/-- Active LP vault at genesis, for the deposit-reset witness. -/
def wVault : LpVault :=
  ⟨0, 0, 0, 0, 0, 0, 0, 0, 0, 1000000, 8000, 0, 5, 50, 5, 7000, 86400, true⟩

/-- LP position with a pending withdrawal request at time 100. -/
def wPosition : LpPosition := ⟨0, 0, 0, 100⟩

/-- Single-sided decidable equality for `Except` results, used to state the
    handler equations decidably. -/
instance {ε α : Type} [DecidableEq ε] [DecidableEq α] : DecidableEq (Except ε α) := fun a b =>
  match a, b with
  | .error e, .error f =>
    if h : e = f then .isTrue (by rw [h]) else .isFalse (by intro hc; cases hc; exact h rfl)
  | .ok x, .ok y =>
    if h : x = y then .isTrue (by rw [h]) else .isFalse (by intro hc; cases hc; exact h rfl)
  | .error _, .ok _ => .isFalse (by intro hc; cases hc)
  | .ok _, .error _ => .isFalse (by intro hc; cases hc)

-- ===========================================================================
-- Supporting lemmas
-- ===========================================================================

/-- `i64cast` never goes below the i64 minimum. -/
theorem i64cast_lb (x : Int) : I64MIN ≤ i64cast x := by
  unfold i64cast I64MIN; omega

/-- `i64cast` never exceeds the i64 maximum. -/
theorem i64cast_ub (x : Int) : i64cast x ≤ I64MAX := by
  unfold i64cast I64MAX; omega

/-- `i64cast` is the identity on in-range values. -/
theorem i64cast_of_bounds (x : Int) (h1 : I64MIN ≤ x) (h2 : x ≤ I64MAX) : i64cast x = x := by
  unfold i64cast; unfold I64MIN at h1; unfold I64MAX at h2; omega

/-- `saturating_add` is plain addition on in-range sums. -/
theorem satAddI64_of_bounds (a b : Int) (h1 : I64MIN ≤ a + b) (h2 : a + b ≤ I64MAX) :
    satAddI64 a b = a + b := by
  unfold satAddI64; unfold I64MIN at h1; unfold I64MAX at h2; unfold I64MIN I64MAX; omega

/-- The unrealized PnL is bounded below by the i64 minimum (it ends in an
    `as i64` narrowing). -/
theorem pnl_lb (p : Position) (price : Nat) : I64MIN ≤ p.unrealized_pnl price := by
  unfold Position.unrealized_pnl
  exact i64cast_lb _

/-- The unrealized PnL is bounded above by the i64 maximum. -/
theorem pnl_ub (p : Position) (price : Nat) : p.unrealized_pnl price ≤ I64MAX := by
  unfold Position.unrealized_pnl
  exact i64cast_ub _

/-- The Ask-side trail is monotone in the reference price, for both fixed and
    percent trails. -/
theorem trailAsk_mono (a : Nat) (pct : Bool) (c1 c2 : Nat) (h : c1 ≤ c2) :
    trailAsk c1 a pct ≤ trailAsk c2 a pct := by
  unfold trailAsk satSubU64
  cases pct with
  | false => show c1 - a ≤ c2 - a; omega
  | true =>
    show c1 - c1 * a / 10000 ≤ c2 - c2 * a / 10000
    rcases le_or_lt 10000 a with ha | ha
    · have h1 : c1 ≤ c1 * a / 10000 :=
        (Nat.le_div_iff_mul_le (by norm_num)).mpr (Nat.mul_le_mul_left c1 ha)
      rw [Nat.sub_eq_zero_of_le h1]
      exact Nat.zero_le _
    · have key : c2 * a / 10000 ≤ c1 * a / 10000 + (c2 - c1) := by
        calc c2 * a / 10000 ≤ (c1 * a + (c2 - c1) * 10000) / 10000 := by
              apply Nat.div_le_div_right
              have e : c2 * a = c1 * a + (c2 - c1) * a := by
                rw [Nat.sub_mul, Nat.add_sub_cancel' (Nat.mul_le_mul_right a h)]
              rw [e]
              exact Nat.add_le_add_left (Nat.mul_le_mul_left _ (le_of_lt ha)) _
          _ = c1 * a / 10000 + (c2 - c1) := Nat.add_mul_div_right _ _ (by norm_num)
      have h2 : c1 * a / 10000 ≤ c1 := by
        apply Nat.div_le_of_le_mul
        calc c1 * a ≤ c1 * 10000 := Nat.mul_le_mul_left c1 (le_of_lt ha)
          _ = 10000 * c1 := Nat.mul_comm _ _
      omega

/-- The Bid-side trail is monotone in the reference price. -/
theorem trailBid_mono (a : Nat) (pct : Bool) (c1 c2 : Nat) (h : c1 ≤ c2) :
    trailBid c1 a pct ≤ trailBid c2 a pct := by
  unfold trailBid satAddU64
  cases pct with
  | false => exact min_le_min (by omega) le_rfl
  | true =>
    show min (c1 + c1 * a / 10000) U64MAX ≤ min (c2 + c2 * a / 10000) U64MAX
    exact min_le_min
      (Nat.add_le_add h (Nat.div_le_div_right (Nat.mul_le_mul_right a h))) le_rfl

-- ===========================================================================
-- Claim theorems
-- ===========================================================================

/-- C1 (code bug): conservation of accounting fails on the code.  Along the
    reachable chain deposit 100_000_000 → open a 10x long (spec-modelled open,
    handler absent from the snapshot) → close at mark 76_500_000, the
    conservation equation holds up to the close, but `close_position` transfers
    the 89_625_000 settlement out of the vault without touching
    `vault.total_deposits`, so afterwards `total_deposits` reads 100_000_000
    while the claim's right-hand side sums to 25_375_000. -/
theorem C1_close_breaks_conservation :
    depositCollateralOp consStart 0 100000000 = .ok consAfterDeposit
    ∧ specOpenPosition consAfterDeposit 0 Side.Long 10000000 75000000 75000000 10000 =
        .ok consAfterOpen
    ∧ conservation consStart ∧ conservation consAfterDeposit ∧ conservation consAfterOpen
    ∧ closePositionOp consAfterOpen 0 0 76500000 = .ok consAfterClose
    ∧ ¬ conservation consAfterClose := by decide

/-- C2 (code bug): the oracle aggregator's `parse_pyth_price` follows the
    claimed normalization rule exactly, but the on-chain handlers multiply the
    raw price by `10^(6+|expo|)` and divide by `10^|expo|` — that is, by 10^6
    regardless of the exponent: for raw 100 at expo −8 the rule yields 1 while
    the handler yields 100_000_000, and for a realistic raw Pyth price
    7_500_000_000 at expo −8 ($75) the handler's u64 multiply overflows and the
    instruction fails with MathOverflow instead of using 75_000_000. -/
theorem C2_handler_normalization_diverges :
    (∀ raw expo : Int, parse_pyth_price6 raw expo = u64castI (specNormalize raw expo))
    ∧ handlerOraclePrice 100 (-8) = some 100000000
    ∧ u64castI (specNormalize 100 (-8)) = 1
    ∧ handlerOraclePrice 7500000000 (-8) = none
    ∧ u64castI (specNormalize 7500000000 (-8)) = 75000000 := by
  refine ⟨fun raw expo => ?_, by decide, by decide, by decide, by decide⟩
  unfold parse_pyth_price6 specNormalize
  split_ifs <;> rfl

/-- C3 (counterexample): on the S1 inputs the code's close does NOT produce a
    fee of 375 on a notional of 750_000 and a settlement of 15_074_625: the
    notional is 750_000_000, so the fee is 375_000 and the settlement
    14_700_000. -/
theorem C3_counterexample :
    closePosition s1Market s1Position s1User 1000000000000 76500000 = .ok s1CloseResult
    ∧ s1Position.notional_value ≠ 750000
    ∧ s1CloseResult.settlement ≠ 15074625
    ∧ s1CloseResult.market.insurance_fund - s1Market.insurance_fund ≠ 375 := by decide

/-- C3 (amended): closing the S1 position at mark 76_500_000 yields pnl
    15_000_000 on a notional of 750_000_000, a fee of 375_000, a settlement of
    14_700_000 transferred to the owner, the long open interest decreased by
    exactly 10_000_000, and the insurance fund increased by 375_000. -/
theorem C3_amended_close_values :
    closePosition s1Market s1Position s1User 1000000000000 76500000 = .ok s1CloseResult
    ∧ s1Position.unrealized_pnl 76500000 = 15000000
    ∧ s1Position.notional_value = 750000000
    ∧ s1CloseResult.market.insurance_fund = s1Market.insurance_fund + 375000
    ∧ s1CloseResult.settlement = 14700000
    ∧ s1Market.long_open_interest - s1CloseResult.market.long_open_interest = 10000000
    ∧ s1CloseResult.market.long_open_interest = 0
    ∧ s1CloseResult.position.status = PositionStatus.Closed := by decide

/-- C4 (code bug): `notional_value` never fails; when the exact notional does
    not fit in u64 it silently truncates modulo 2^64 — at size = price =
    4_294_967_296_000 the exact notional is exactly 2^64 and the code returns
    0; at size 10^13, price 2·10^12 it returns a wrong nonzero value. -/
theorem C4_notional_truncates_on_overflow :
    Position.notional_value ⟨Side.Long, 4294967296000, 0, 4294967296000, 0, 0,
        PositionStatus.Open⟩ = 0
    ∧ exactNotional 4294967296000 4294967296000 = U64MOD
    ∧ U64MAX < exactNotional 4294967296000 4294967296000
    ∧ Position.notional_value ⟨Side.Long, 10000000000000, 0, 2000000000000, 0, 0,
        PositionStatus.Open⟩ = 1553255926290448384
    ∧ exactNotional 10000000000000 2000000000000 = 20000000000000000000 := by decide

/-- C5 (counterexample): the claim's margin ratio (equity × 10000 / notional,
    no narrowing) is astronomically above maintenance on a position with
    notional 1 and collateral 2^32, yet `liquidate` succeeds, because the
    code's `as u32` narrowing reduces the ratio 10000·2^32 to 0. -/
theorem C5_counterexample :
    claimedMarginRatio wrapPosition 1000000 = 42949672960000
    ∧ wrapMarket.maintenance_margin_ratio ≤ claimedMarginRatio wrapPosition 1000000
    ∧ Position.margin_ratio wrapPosition 1000000 = 0
    ∧ (liquidate wrapMarket wrapPosition ⟨0, 0, 0⟩ 10000000000 1000000).isOk = true := by
  decide

/-- C5 (amended): the liquidation threshold is exact with respect to the
    code's `margin_ratio`: for an Open position, `liquidate` fails with
    NotLiquidatable exactly when `margin_ratio(p) ≥ maintenance_margin_ratio`
    and succeeds when it is below (granted the vault token account covers the
    liquidation reward); and the code's `margin_ratio` is the claim's
    `equity × 10000 / notional` (both positive, else 0) REDUCED MODULO 2^32,
    whenever collateral and equity are in i64 range.  The hypothesis `hovf` is
    the no-overflow bound for the source's plain u64 multiply
    `(equity as u64) * 10000`: that multiply is reached only when the notional
    is nonzero and the equity positive (`toNat` is 0 otherwise), and when it
    would exceed u64 the program aborts instead of returning a verdict, so the
    theorem quantifies exactly over the non-aborting executions. -/
theorem C5_amended_threshold (m : Market) (p : Position) (u : UserAccount)
    (vt price : Nat) (hopen : p.status = PositionStatus.Open)
    (hovf : p.notional_value = 0 ∨
        (satAddI64 (i64cast (p.collateral : Int)) (p.unrealized_pnl price)).toNat * 10000
          < U64MOD) :
    (m.maintenance_margin_ratio ≤ p.margin_ratio price →
        liquidate m p u vt price = .error .NotLiquidatable)
    ∧ (p.margin_ratio price < m.maintenance_margin_ratio →
        u64cast ((max (i64cast (p.collateral : Int) + p.unrealized_pnl price) 0).toNat
            * m.liquidation_fee / 10000) ≤ vt →
        (liquidate m p u vt price).isOk = true)
    ∧ ((p.collateral : Int) < 9223372036854775808 →
        (p.collateral : Int) + p.unrealized_pnl price ≤ I64MAX →
        p.margin_ratio price = u32cast (claimedMarginRatio p price)) := by
  refine ⟨?_, ?_, ?_⟩
  · intro h
    unfold liquidate
    rw [if_neg (not_not_intro hopen)]
    have hb : p.is_liquidatable price m.maintenance_margin_ratio = false := by
      unfold Position.is_liquidatable
      exact decide_eq_false (not_lt.mpr h)
    rw [if_pos (by simp [hb])]
  · intro h hvt
    have hb : p.is_liquidatable price m.maintenance_margin_ratio = true := by
      unfold Position.is_liquidatable
      exact decide_eq_true h
    simp only [liquidate]
    rw [if_neg (not_not_intro hopen), if_neg (by simp [hb])]
    split_ifs with h1 h2
    · exact absurd h2 (by omega)
    · rfl
    · rfl
  · intro h1 h2
    have hcast : i64cast ((p.collateral : Nat) : Int) = (p.collateral : Int) := by
      apply i64cast_of_bounds
      · unfold I64MIN; omega
      · unfold I64MAX; omega
    have hsat : satAddI64 ((p.collateral : Nat) : Int) (p.unrealized_pnl price) =
        (p.collateral : Int) + p.unrealized_pnl price := by
      apply satAddI64_of_bounds
      · have := pnl_lb p price
        unfold I64MIN at this ⊢
        omega
      · exact h2
    simp only [Position.margin_ratio, claimedMarginRatio, hcast, hsat]
    by_cases hE : (p.collateral : Int) + p.unrealized_pnl price ≤ 0
    · rw [if_pos hE, if_neg (fun hc => absurd hc.1 (by omega))]
      decide
    · by_cases hN : p.notional_value = 0
      · rw [if_neg hE, if_pos hN, if_neg (fun hc => absurd hc.2 (by omega))]
        decide
      · rw [if_neg hE, if_neg hN, if_pos ⟨by omega, by omega⟩]

/-- C5 witness: the amended threshold theorem applied to scenario S2 — the S1
    long at mark 68_000_000 has negative equity (so the u64 multiply is never
    reached and the overflow bound holds trivially), margin ratio 0 < 500, and
    liquidation succeeds (zero reward, so any vault balance suffices). -/
theorem C5_amended_witness :
    (liquidate s1Market s1Position ⟨0, 0, 0⟩ 0 68000000).isOk = true :=
  (C5_amended_threshold s1Market s1Position ⟨0, 0, 0⟩ 0 68000000 (by decide)
    (Or.inr (by decide))).2.1 (by decide) (by decide)

/-- C6 (counterexample): with net exposure 600 over a cap of 500, the code's
    skew ratio is 12000 — not capped at 10000 — so a non-reducing long is
    quoted spread 5 + 120 = 125 bp while the claim's capped formula yields
    5 + 100 = 105 bp. -/
theorem C6_counterexample :
    LpVault.calculate_spread skewVault true = 125
    ∧ claimedSpreadCap skewVault = 105
    ∧ LpVault.calculate_spread skewVault true ≠ claimedSpreadCap skewVault := by decide

/-- C6 (amended): the quoted spread is `base_spread + skew_ratio ×
    max_skew_spread / 10000` with the skew ratio `|net_exposure| × 10000 /
    max_exposure` (0 when the cap is 0) NOT capped, and it is halved (integer
    division) exactly when the trade direction opposes the sign of
    `net_exposure` — long into a net-short book or short into a net-long book —
    regardless of whether the trade size actually reduces `|net_exposure|`.
    (The hypothesis keeps the skew ratio inside u32, where the source's
    `as u32` narrowing is the identity.) -/
theorem C6_amended_spread (v : LpVault) (is_long : Bool)
    (hcap : (if 0 < v.max_exposure then v.net_exposure.natAbs * 10000 / v.max_exposure else 0)
        < U32MOD) :
    v.calculate_spread is_long = amendedSpread v is_long := by
  simp only [LpVault.calculate_spread, amendedSpread, u32cast]
  rw [Nat.mod_eq_of_lt hcap]
  congr 1
  · simp [Bool.or_eq_true, Bool.and_eq_true, decide_eq_true_eq]

/-- C6 witness: the amended formula applied to the uncapped-skew vault. -/
theorem C6_amended_witness :
    LpVault.calculate_spread skewVault true = amendedSpread skewVault true ∧
    amendedSpread skewVault true = 125 :=
  ⟨C6_amended_spread skewVault true (by decide), by decide⟩

/-- C7 (code bug): the MM collateral identity holds after posting the S4 quote
    (locked 375_500_000 = the quote's `collateral_locked`), but a partial
    10_000_000 buy fill recomputes the lock as 375_000_000 and frees the
    500_000 difference from the MM WITHOUT writing the new value back into
    `quote.collateral_locked`, so afterwards the MM's `collateral_locked` is
    375_000_000 while its single active quote still records 375_500_000. -/
theorem C7_partial_fill_breaks_identity :
    postQuote s4Registry s4MM s4Params 1000 = .ok (s4Registry1, s4MM1, s4Quote1)
    ∧ mmCollateralIdentity s4MM1 [s4Quote1]
    ∧ fillQuote s4Registry1 s4MM1 s4Quote1 10000000 true 1000 =
        .ok (s4Registry2, s4MM2, s4Quote2)
    ∧ s4Quote2.is_active = true
    ∧ s4MM2.collateral_locked = 375000000
    ∧ s4Quote2.collateral_locked = 375500000
    ∧ ¬ mmCollateralIdentity s4MM2 [s4Quote2] := by decide

/-- C8: `update_funding` refuses to run before `funding_interval` has elapsed;
    once it runs (fresh positive oracle, convertible price) it adds exactly
    `((long_oi − short_oi) × 1e6 / (long_oi + short_oi)) × 100 / 1e6` to the
    cumulative funding rate with `saturating_add` and stamps
    `last_funding_time = now`; the delta is 0 with no open interest, and 33 at
    long 1_000_000_000 / short 500_000_000. -/
theorem C8_update_funding (m : Market) (now raw expo publish_time : Int) :
    (now - m.last_funding_time < m.funding_interval →
        updateFunding m now raw expo publish_time = .error .InvalidMarketConfig)
    ∧ (m.funding_interval ≤ now - m.last_funding_time →
        now - 60 ≤ publish_time → 0 < raw →
        (handlerOraclePrice raw expo).isSome = true →
        updateFunding m now raw expo publish_time =
          .ok { m with funding_rate := satAddI64 m.funding_rate
                          (fundingDelta m.long_open_interest m.short_open_interest),
                       last_funding_time := now })
    ∧ (m.long_open_interest + m.short_open_interest = 0 →
        fundingDelta m.long_open_interest m.short_open_interest = 0)
    ∧ fundingDelta 1000000000 500000000 = 33 := by
  refine ⟨?_, ?_, ?_, by decide⟩
  · intro h
    unfold updateFunding
    rw [if_pos (by exact fun hc => absurd hc (not_le.mpr h))]
  · intro h1 h2 h3 h4
    unfold updateFunding
    rw [if_neg (not_not_intro h1), if_neg (not_not_intro h2), if_neg (not_not_intro h3)]
    cases hOpt : handlerOraclePrice raw expo with
    | none => rw [hOpt] at h4; simp at h4
    | some v => rfl
  · intro h
    have hl : m.long_open_interest = 0 := by omega
    have hs : m.short_open_interest = 0 := by omega
    unfold fundingDelta
    rw [hl, hs]
    simp

/-- C8 witness: on the 1e9/5e8 market, one update at now = 3600 (interval
    elapsed, fresh oracle) adds exactly 33 to the cumulative rate. -/
theorem C8_update_funding_witness :
    updateFunding fundingMarket 3600 100 (-8) 3590 =
      .ok { fundingMarket with funding_rate := 33, last_funding_time := 3600 } := by
  have h := (C8_update_funding fundingMarket 3600 100 (-8) 3590).2.1
    (by decide) (by decide) (by decide) (by decide)
  rw [h]
  decide

/-- C9 (counterexample): a freshly placed Ask trailing stop carrying the
    caller-supplied trigger 100_000_000 (highest_price still 0) has its trigger
    price DECREASED to 0 by the first update at mark 50, refuting
    "trigger_price never decreases" as stated. -/
theorem C9_counterexample :
    (badTrailOrder.update_trailing_stop 50).trigger_price < badTrailOrder.trigger_price := by
  decide

/-- C9 (amended): once the trigger equals the trail of the recorded extreme —
    which every effective update establishes — the trailing stop is monotone in
    the protective direction: an Ask order only updates when the mark exceeds
    `highest_price` and then its trigger never decreases; a Bid order only
    updates when the mark is below `lowest_price` (or `lowest_price` is 0) and
    on a new low its trigger never increases. -/
theorem C9_amended_trailing (o : Order) (c : Nat)
    (ht : o.order_type = OrderType.TrailingStop) :
    (o.side = OrderSide.Ask →
      (c ≤ o.highest_price → o.update_trailing_stop c = o)
      ∧ (o.trigger_price = trailAsk o.highest_price o.trailing_amount o.trailing_percent →
          o.trigger_price ≤ (o.update_trailing_stop c).trigger_price
          ∧ (o.update_trailing_stop c).trigger_price =
              trailAsk (o.update_trailing_stop c).highest_price o.trailing_amount
                o.trailing_percent))
    ∧ (o.side = OrderSide.Bid →
      (¬ (c < o.lowest_price ∨ o.lowest_price = 0) → o.update_trailing_stop c = o)
      ∧ (o.trigger_price = trailBid o.lowest_price o.trailing_amount o.trailing_percent →
          c < o.lowest_price →
          (o.update_trailing_stop c).trigger_price ≤ o.trigger_price
          ∧ (o.update_trailing_stop c).trigger_price =
              trailBid c o.trailing_amount o.trailing_percent)) := by
  unfold Order.update_trailing_stop
  rw [if_neg (not_not_intro ht)]
  constructor
  · intro hside
    rw [hside]
    constructor
    · intro hle
      rw [if_neg (by omega)]
    · intro hinv
      by_cases hgt : c > o.highest_price
      · rw [if_pos hgt]
        refine ⟨?_, rfl⟩
        rw [hinv]
        exact trailAsk_mono _ _ _ _ (le_of_lt hgt)
      · rw [if_neg hgt]
        exact ⟨le_refl _, hinv⟩
  · intro hside
    rw [hside]
    constructor
    · intro hcond
      rw [if_neg hcond]
    · intro hinv hlt
      rw [if_pos (Or.inl hlt)]
      refine ⟨?_, rfl⟩
      rw [hinv]
      exact trailBid_mono _ _ _ _ (le_of_lt hlt)

/-- C9 witness: the amended theorem applied to an Ask trailing stop in the
    post-update regime (highest 70, trigger 60 = trailAsk 70): the update at
    mark 80 moves the trigger up to 70, not below 60. -/
theorem C9_amended_witness :
    trailOrder.trigger_price ≤ (trailOrder.update_trailing_stop 80).trigger_price ∧
    (trailOrder.update_trailing_stop 80).trigger_price = 70 :=
  ⟨(((C9_amended_trailing trailOrder 80 (by decide)).1 (by decide)).2 (by decide)).1,
   by decide⟩

/-- C10: any successful deposit into an LP position resets
    `withdrawal_requested_at` to 0, silently cancelling a pending withdrawal
    request: afterwards `can_withdraw` is false at every delay and time, so the
    owner must re-request and sit out the full delay again. -/
theorem C10_deposit_cancels_withdrawal_request (v : LpVault) (lp : LpPosition)
    (amount : Nat) (now : Int) (out : LpVault × LpPosition)
    (hreq : 0 < lp.withdrawal_requested_at)
    (hok : ammDeposit v lp amount now = .ok out) :
    out.2.withdrawal_requested_at = 0
    ∧ ∀ delay t : Int, out.2.can_withdraw delay t = false := by
  simp only [ammDeposit] at hok
  split_ifs at hok <;>
    (injection hok with h; subst h;
     exact ⟨rfl, fun delay t => by unfold LpPosition.can_withdraw; simp⟩)

/-- C10 witness: depositing 5 into a genesis vault while a request from time
    100 is pending resets the request and blocks withdrawal. -/
theorem C10_witness :
    ((⟨{ wVault with total_assets := 5, total_shares := 5 }, ⟨5, 5, 7, 0⟩⟩ :
        LpVault × LpPosition).2).withdrawal_requested_at = 0
    ∧ (⟨{ wVault with total_assets := 5, total_shares := 5 }, (⟨5, 5, 7, 0⟩ : LpPosition)⟩ :
        LpVault × LpPosition).2.can_withdraw 86400 999999 = false := by
  have h := C10_deposit_cancels_withdrawal_request wVault wPosition 5 7
    ⟨{ wVault with total_assets := 5, total_shares := 5 }, ⟨5, 5, 7, 0⟩⟩
    (by decide) (by decide)
  exact ⟨h.1, h.2 86400 999999⟩

end OilPerps
